import Mathlib

/-!
# Plugin loading and message dispatch of `SimpleBot`

A shallow embedding of `pkg/bot/SimpleBot.go` and `pkg/bot/BasicBot.go`.

Modelling conventions

* Go `string`s are Lean `String`s, so `[]rune(s)` is `s.data` and `string(rs)` is
  `String.mk rs` (the text is taken to be valid UTF-8).
* A Go `error` is represented by its message; `(T, error)` results are
  `Except GoError T`, and a bare `error` result is `Option GoError` (`none` is `nil`).
* `*PluginContract` is nil-able, hence `Option PluginContract`; a contract is identified
  with the function value it holds.
* The Go map `loadedPlugins` is an association list searched with `List.lookup`.
* Everything the code calls outside the package (the standard library, the plugin
  runtime, the HTTP helper, the code of a loaded plugin) is a field of `Env`.
* The file system is explicit state threaded through the functions, and every function
  also returns the list of externally visible operations it performed, in order.
-/

set_option linter.unusedVariables false

namespace Bot

/-- A Go `error`, represented by its message. -/
abbrev GoError := String

deriving instance DecidableEq for Except

/-- The `actor.PID` of the actor runtime. -/
structure PID where
  Address : String
  Id : String
deriving DecidableEq, Repr

/-- The `plgn.PluginIdentifier` (and `msg.LoadPlugin`, which converts to it). -/
structure PluginIdentifier where
  PluginName : String
  PluginVersion : String
deriving DecidableEq, Repr

/-- The fields of `url.URL` the package sets or produces. -/
structure URL where
  Scheme : String
  Host : String
  Path : String
deriving DecidableEq, Repr

/-- A function value of type `func(bot *SimpleBot, ctx actor.Context)`, named by a code
reference; what it does when called is `Env.callReceive`. -/
abbrev ReceiveFunc := Nat

/-- `PluginContract` of BasicBot.go. -/
structure PluginContract where
  Receive : ReceiveFunc
deriving DecidableEq, Repr

/-- A loaded `*plugin.Plugin`. -/
structure Plugin where
  handle : Nat
deriving DecidableEq, Repr

/-- A `plugin.Symbol` by dynamic type: either a function of the type `Receive` must have,
or a value of any other type. -/
inductive Symbol where
  | receiveFunc (f : ReceiveFunc)
  | other (tag : Nat)
deriving DecidableEq, Repr

/-- The messages `Receive` switches on, by dynamic type. -/
inductive Message where
  | Started
  | LoadPlugin (ident : PluginIdentifier)
  | Stopping
  | Stopped
  | Other (payload : String)
deriving DecidableEq, Repr

/-- The part of `actor.Context` the bot reads: `ctx.Self()` and `ctx.Message()`. -/
structure Context where
  Self : PID
  Message : Message
deriving DecidableEq, Repr

/-- The struct `SimpleBot`. -/
structure SimpleBot where
  nl : List (Option PID)
  loadedPlugins : List (PluginIdentifier × Option PluginContract)
  activePlugin : Option PluginContract
  pluginRepoUrl : URL
deriving DecidableEq, Repr

/-- The `http.Response` fields read by `downloadPlugin`. -/
structure Response where
  StatusCode : Int
  Body : List Nat
deriving DecidableEq, Repr

/-- The `util.HttpResponse` sent over the channel: `Resp` is read only when `Err` is nil,
and is then a response, as `http.Get` returns one whenever its error is nil. -/
structure HttpResponse where
  Err : Option GoError
  Resp : Response
deriving DecidableEq, Repr

/-- The file system: the content of the file at each path, if there is one. -/
structure FileSystem where
  files : String → Option (List Nat)

/-- The file at `dest` exists and is empty (the effect of a successful `os.Create`). -/
def FileSystem.truncate (fs : FileSystem) (dest : String) : FileSystem :=
  ⟨fun p => if p = dest then some [] else fs.files p⟩

/-- The file at `dest` holds `bytes`. -/
def FileSystem.write (fs : FileSystem) (dest : String) (bytes : List Nat) : FileSystem :=
  ⟨fun p => if p = dest then some bytes else fs.files p⟩

/-- Externally visible operations, recorded in the order they happen. -/
inductive Event where
  | log (text : String)
  | pluginOpen (path : String)
  | httpGetAsync (url : String)
  | mkdirAll (path : String)
  | create (path : String)
  | recvResponse
  | copyBody (path : String) (bytes : List Nat)
  | closeBody
  | closeFile (path : String)
  | callReceive (contract : PluginContract) (bot : SimpleBot) (ctx : Context)
deriving DecidableEq, Repr

/-- What the package calls but does not define. -/
structure Env where
  /-- The method `plgn.PluginIdentifier.String`. -/
  identString : PluginIdentifier → String
  /-- The function `path.Join` on two elements. -/
  pathJoin : String → String → String
  /-- The function `filepath.Abs`. -/
  filepathAbs : String → Except GoError String
  /-- The function `url.Parse`. -/
  urlParse : String → Except GoError URL
  /-- The method `(*url.URL).ResolveReference`. -/
  resolveReference : URL → URL → URL
  /-- The method `(*url.URL).String`. -/
  urlString : URL → String
  /-- The value `util.HttpGetAsync` sends on the channel for a URL. -/
  httpGet : String → HttpResponse
  /-- The function `os.MkdirAll`: the file system afterwards and the error. -/
  osMkdirAll : FileSystem → String → FileSystem × Option GoError
  /-- Whether `os.Create` fails; when it does not, the file is created or truncated. -/
  osCreate : FileSystem → String → Option GoError
  /-- The bytes `io.Copy` manages to write from a body (its error is discarded). -/
  ioCopy : List Nat → List Nat
  /-- The function `plugin.Open`, which reads the file system. -/
  pluginOpen : FileSystem → String → Except GoError Plugin
  /-- The method `(*plugin.Plugin).Lookup`. -/
  pluginLookup : Plugin → String → Except GoError Symbol
  /-- Running the code of a contract on the bot and a message context. -/
  callReceive : PluginContract → FileSystem → SimpleBot → Context → FileSystem × SimpleBot

/-- The constant `initialNlSize` of BasicBot.go. -/
def initialNlSize : Nat := 11

/-- The constant `initialModuleSize` of BasicBot.go. -/
def initialModuleSize : Nat := 11

/-- The constant `pathToPluginFiles` of BasicBot.go. -/
def pathToPluginFiles : String := "../plugins"

/-- The variable `defaultPluginRepoUrl` of BasicBot.go. -/
def defaultPluginRepoUrl : URL :=
  { Scheme := "https", Host := "go-plugin-repo.s3.eu-central-1.amazonaws.com", Path := "" }

/-- The function `NewSimpleBot`. -/
def NewSimpleBot : SimpleBot :=
  { nl := List.replicate initialNlSize none
    loadedPlugins := []
    activePlugin := none
    pluginRepoUrl := defaultPluginRepoUrl }

/-- The method `SetNl`. -/
def SetNl (state : SimpleBot) (nl : List (Option PID)) : SimpleBot :=
  { state with nl := nl }

/-- The method `Nl`. -/
def Nl (state : SimpleBot) : List (Option PID) :=
  state.nl

/-- The method `SetPlugins`, which replaces the plugin cache. -/
def SetPlugins (state : SimpleBot)
    (plugins : List (PluginIdentifier × Option PluginContract)) : SimpleBot :=
  { state with loadedPlugins := plugins }

/-- The method `Plugins`, which returns the plugin cache. -/
def Plugins (state : SimpleBot) : List (PluginIdentifier × Option PluginContract) :=
  state.loadedPlugins

/-- The method `SetRemoteRepoUrl`. -/
def SetRemoteRepoUrl (state : SimpleBot) (url : URL) : SimpleBot :=
  { state with pluginRepoUrl := url }

/-- The method `RemoteRepoUrl`. -/
def RemoteRepoUrl (state : SimpleBot) : URL :=
  state.pluginRepoUrl

/-- The method `loadFsLocalPlugin`. -/
def loadFsLocalPlugin (env : Env) (state : SimpleBot) (fs : FileSystem) (path : String) :
    List Event × Except GoError Plugin :=
  let pathRune := path.data
  if pathRune.length < 4 || String.mk (pathRune.drop (pathRune.length - 3)) != ".so" then
    ([], .error ("invalid file extension " ++ path ++
      " for local plugin. File extesnion must be \".so\""))
  else
    match env.pluginOpen fs path with
    | .error err =>
      ([.log "loading plugin from local filesystem", .pluginOpen path,
        .log "failed to load plugin locally"], .error err)
    | .ok plugin =>
      ([.log "loading plugin from local filesystem", .pluginOpen path], .ok plugin)

/-- The method `downloadPlugin`: the file system afterwards, the operations performed, and
the returned error. -/
def downloadPlugin (env : Env) (state : SimpleBot) (fs : FileSystem)
    (ident : PluginIdentifier) (dest : String) : FileSystem × List Event × Option GoError :=
  match env.urlParse (ident.PluginName ++ "_" ++ ident.PluginVersion ++ ".so") with
  | .error err => (fs, [], some err)
  | .ok urlPath =>
    let urlStr := env.urlString (env.resolveReference state.pluginRepoUrl urlPath)
    let started := [Event.log "Downloading plugin from remote repository",
      Event.httpGetAsync urlStr]
    match env.filepathAbs pathToPluginFiles with
    | .error pathErr => (fs, started, some pathErr)
    | .ok absDirPath =>
      match env.osMkdirAll fs absDirPath with
      | (fs1, some dirErr) =>
        (fs1, started ++ [.mkdirAll absDirPath, .log "could not create directories"],
          some dirErr)
      | (fs1, none) =>
        match env.osCreate fs1 dest with
        | some err =>
          (fs1, started ++ [.mkdirAll absDirPath, .create dest,
            .log "failed to open up file."], some err)
        | none =>
          let fs2 := fs1.truncate dest
          let resp := env.httpGet urlStr
          let waited := started ++ [.mkdirAll absDirPath, .create dest, .recvResponse]
          match resp.Err with
          | some respErr => (fs2, waited ++ [.closeFile dest], some respErr)
          | none =>
            if resp.Resp.StatusCode != 200 then
              (fs2, waited ++ [.closeFile dest],
                some ("could not download plugin from " ++ env.urlString urlPath ++
                  ". status code: " ++ toString resp.Resp.StatusCode))
            else
              let written := env.ioCopy resp.Resp.Body
              (fs2.write dest written,
                waited ++ [.copyBody dest written, .log "plugin successfully downloaded",
                  .closeBody, .closeFile dest], none)

/-- The method `loadPluginFile`. -/
def loadPluginFile (env : Env) (state : SimpleBot) (fs : FileSystem)
    (ident : PluginIdentifier) : FileSystem × List Event × Except GoError Plugin :=
  match env.filepathAbs (env.pathJoin pathToPluginFiles
      (ident.PluginName ++ "_" ++ ident.PluginVersion ++ ".so")) with
  | .error err => (fs, [], .error err)
  | .ok plgnPath =>
    match loadFsLocalPlugin env state fs plgnPath with
    | (local1, .ok lfsPlgn) => (fs, local1, .ok lfsPlgn)
    | (local1, .error _) =>
      let tried := local1 ++
        [Event.log "Plugin not found locally. Trying to download from remote repository."]
      match downloadPlugin env state fs ident plgnPath with
      | (fs1, remote, none) =>
        match loadFsLocalPlugin env state fs1 plgnPath with
        | (local2, .ok lfsPlgn) => (fs1, tried ++ remote ++ local2, .ok lfsPlgn)
        | (local2, .error _) =>
          (fs1, tried ++ remote ++ local2,
            .error ("plugin " ++ env.identString ident ++ " could not be found"))
      | (fs1, remote, some _) =>
        (fs1, tried ++ remote,
          .error ("plugin " ++ env.identString ident ++ " could not be found"))

/-- The method `loadFunctionsAndVariablesFromPlugin`. -/
def loadFunctionsAndVariablesFromPlugin (env : Env) (state : SimpleBot) (plgn : Plugin) :
    Except GoError PluginContract :=
  let symbolName := "Receive"
  match env.pluginLookup plgn symbolName with
  | .error err => .error err
  | .ok sym =>
    match sym with
    | .receiveFunc receive => .ok { Receive := receive }
    | .other _ => .error ("plugin is missing required method " ++ symbolName)

/-- The method `handleStarted`. -/
def handleStarted (state : SimpleBot) (ctx : Context) : List Event × SimpleBot :=
  ([.log "initializing bot..."], state)

/-- The method `loadPlugin`. -/
def loadPlugin (env : Env) (state : SimpleBot) (fs : FileSystem) (ctx : Context)
    (pluginIdent : PluginIdentifier) : FileSystem × List Event × SimpleBot :=
  match loadPluginFile env state fs pluginIdent with
  | (fs1, file, .error _) => (fs1, file ++ [.log "could not load plugin"], state)
  | (fs1, file, .ok plgn) =>
    match loadFunctionsAndVariablesFromPlugin env state plgn with
    | .error _ =>
      (fs1, file ++ [.log "could not load variables/ functions from loaded plugin"], state)
    | .ok funcs => (fs1, file, { state with activePlugin := some funcs })

/-- The method `handleLoadPlugin`. -/
def handleLoadPlugin (env : Env) (state : SimpleBot) (fs : FileSystem) (ctx : Context)
    (pluginIdent : PluginIdentifier) : FileSystem × List Event × SimpleBot :=
  match state.loadedPlugins.lookup pluginIdent with
  | some plgn => (fs, [], { state with activePlugin := plgn })
  | none => loadPlugin env state fs ctx pluginIdent

/-- The method `handleStopping`. -/
def handleStopping (state : SimpleBot) (ctx : Context) : List Event × SimpleBot :=
  ([.log "shutting down bot..."], state)

/-- The method `handleStopped`. -/
def handleStopped (state : SimpleBot) (ctx : Context) : List Event × SimpleBot :=
  ([.log "bot shutdown."], state)

/-- The method `Receive`. -/
def Receive (env : Env) (state : SimpleBot) (fs : FileSystem) (ctx : Context) :
    FileSystem × List Event × SimpleBot :=
  let received := [Event.log "received message"]
  match ctx.Message with
  | .Started =>
    let (handled, state1) := handleStarted state ctx
    (fs, received ++ handled, state1)
  | .LoadPlugin mssg =>
    let (fs1, handled, state1) := handleLoadPlugin env state fs ctx mssg
    (fs1, received ++ handled, state1)
  | .Stopping =>
    let (handled, state1) := handleStopping state ctx
    (fs, received ++ handled, state1)
  | .Stopped =>
    let (handled, state1) := handleStopped state ctx
    (fs, received ++ handled, state1)
  | .Other _ =>
    match state.activePlugin with
    | some active =>
      let (fs1, state1) := env.callReceive active fs state ctx
      (fs1, received ++ [.callReceive active state ctx], state1)
    | none =>
      (fs, received ++ [.log "Tried to invoke a plugin while no plugin was loaded"], state)

/-- The node and file system after `Receive` has handled the given contexts in order,
with all the operations performed. -/
def receiveAll (env : Env) (state : SimpleBot) (fs : FileSystem) :
    List Context → FileSystem × List Event × SimpleBot
  | [] => (fs, [], state)
  | ctx :: rest =>
    match Receive env state fs ctx with
    | (fs1, first, state1) =>
      match receiveAll env state1 fs1 rest with
      | (fs2, later, state2) => (fs2, first ++ later, state2)

/-! ## A concrete environment

The bot runs in `/srv/bot/bin`; the plugin directory `/srv/bot/plugins` holds
`alpha_1.0.so` (a well-formed plugin exporting `Receive`) and `beta_2.so` (a module whose
`Receive` has another type). The repository serves `search_2.0.so`, a well-formed plugin,
and answers 404 for every other file. -/

/-- The bytes of a well-formed plugin file. -/
def goodModule : List Nat := [127, 69, 76, 70, 1]

/-- The bytes of a module whose `Receive` symbol is not a function of the required type. -/
def oddModule : List Nat := [127, 69, 76, 70, 2]

/-- The file system of the example: two module files in the plugin directory. -/
def sampleFs : FileSystem :=
  ⟨fun p =>
    if p = "/srv/bot/plugins/alpha_1.0.so" then some goodModule
    else if p = "/srv/bot/plugins/beta_2.so" then some oddModule
    else none⟩

/-- The environment of the example. -/
def sampleEnv : Env where
  identString ident := ident.PluginName ++ "_" ++ ident.PluginVersion
  pathJoin dir file := dir ++ "/" ++ file
  filepathAbs p :=
    if p = "../plugins" then .ok "/srv/bot/plugins"
    else if p = "../plugins/alpha_1.0.so" then .ok "/srv/bot/plugins/alpha_1.0.so"
    else if p = "../plugins/beta_2.so" then .ok "/srv/bot/plugins/beta_2.so"
    else if p = "../plugins/search_2.0.so" then .ok "/srv/bot/plugins/search_2.0.so"
    else if p = "../plugins/x_9.so" then .ok "/srv/bot/plugins/x_9.so"
    else .ok ("/srv/bot/bin/" ++ p)
  urlParse s := .ok { Scheme := "", Host := "", Path := s }
  resolveReference base ref := { Scheme := base.Scheme, Host := base.Host, Path := "/" ++ ref.Path }
  urlString u := if u.Scheme = "" then u.Path else u.Scheme ++ "://" ++ u.Host ++ u.Path
  httpGet url :=
    if url = "https://go-plugin-repo.s3.eu-central-1.amazonaws.com/search_2.0.so" then
      { Err := none, Resp := { StatusCode := 200, Body := goodModule } }
    else
      { Err := none, Resp := { StatusCode := 404, Body := [60, 63, 120] } }
  osMkdirAll fs _ := (fs, none)
  osCreate _ _ := none
  ioCopy body := body
  pluginOpen fs p :=
    match fs.files p with
    | some bytes =>
      if bytes = goodModule then .ok ⟨1⟩
      else if bytes = oddModule then .ok ⟨2⟩
      else .error "plugin.Open: not a plugin"
    | none => .error "plugin.Open: realpath failed"
  pluginLookup plgn name :=
    if name = "Receive" then
      if plgn.handle = 1 then .ok (.receiveFunc 7) else .ok (.other 0)
    else .error "symbol not found"
  callReceive _ fs bot _ := (fs, bot)

/-- The bot of the example after plugin `y`, version `1`, was made active. -/
def botWithY : SimpleBot := { NewSimpleBot with activePlugin := some ⟨41⟩ }

/-- The bot of the example with `alpha` and a nil entry for `gamma` in its cache. -/
def botWithCache : SimpleBot :=
  { NewSimpleBot with
    loadedPlugins := [(⟨"alpha", "1.0"⟩, some ⟨7⟩), (⟨"gamma", "3"⟩, none)]
    activePlugin := some ⟨41⟩ }

/-- The context delivering a message to the bot of the example. -/
def ctxOf (m : Message) : Context := ⟨⟨"nonhost", "bot1"⟩, m⟩

/-! ## Properties -/

/-- Is the event a call of a plugin entry point? -/
def Event.isCallReceive : Event → Bool
  | .callReceive _ _ _ => true
  | _ => false

/-- Is the event an operation on the file system or the network? -/
def Event.isFsOrNet : Event → Bool
  | .log _ => false
  | .callReceive _ _ _ => false
  | _ => true

/-- Is the event one of the operations of a download? -/
def Event.isDownload : Event → Bool
  | .httpGetAsync _ => true
  | .mkdirAll _ => true
  | .create _ => true
  | .recvResponse => true
  | .copyBody _ _ => true
  | .closeBody => true
  | .closeFile _ => true
  | _ => false

/-- Is the event a start of an HTTP GET? -/
def Event.isHttpGet : Event → Bool
  | .httpGetAsync _ => true
  | _ => false

/-- Is the event a call of `plugin.Open`? -/
def Event.isPluginOpen : Event → Bool
  | .pluginOpen _ => true
  | _ => false

/-- The active plugin is nil or is the value of some entry of the cache. -/
def activeInCache (state : SimpleBot) : Prop :=
  state.activePlugin = none ∨
    ∃ ident, state.loadedPlugins.lookup ident = some state.activePlugin

/-- The `urlStr` of `downloadPlugin`: the parsed file name resolved against the repository
URL of the node, as a string. -/
def downloadUrl (env : Env) (state : SimpleBot) (urlPath : URL) : String :=
  env.urlString (env.resolveReference state.pluginRepoUrl urlPath)

/-- The text of the error `loadFsLocalPlugin` returns for a wrong extension. -/
def invalidExtension (path : String) : GoError :=
  "invalid file extension " ++ path ++ " for local plugin. File extesnion must be \".so\""

/-- The text of the error `loadPluginFile` returns when every attempt failed. -/
def notFound (env : Env) (ident : PluginIdentifier) : GoError :=
  "plugin " ++ env.identString ident ++ " could not be found"

/-- C5: a path that does not end in `.so` makes `loadFsLocalPlugin` return the
invalid-file-extension error without any operation, so `plugin.Open` is not reached. -/
theorem loadFsLocalPlugin_wrong_extension (env : Env) (state : SimpleBot) (fs : FileSystem)
    (path : String) (h : ¬ List.IsSuffix ".so".data path.data) :
    loadFsLocalPlugin env state fs path = ([], .error (invalidExtension path)) := by
  unfold loadFsLocalPlugin invalidExtension
  have hcond : (path.data.length < 4 ||
      String.mk (path.data.drop (path.data.length - 3)) != ".so") = true := by
    by_contra hc
    simp only [Bool.or_eq_true, decide_eq_true_eq, bne_iff_ne, ne_eq, not_or, not_lt,
      Decidable.not_not] at hc
    apply h
    have hd : path.data.drop (path.data.length - 3) = ".so".data := by
      rw [← hc.2]
    rw [← hd]
    exact List.drop_suffix _ _
  simp only [hcond, if_true]

/-- Witness of C5 at the path of a text file. -/
theorem loadFsLocalPlugin_wrong_extension_witness :
    (¬ List.IsSuffix ".so".data "/srv/bot/plugins/alpha_1.0.txt".data) ∧
    loadFsLocalPlugin sampleEnv NewSimpleBot sampleFs "/srv/bot/plugins/alpha_1.0.txt" =
      ([], .error (invalidExtension "/srv/bot/plugins/alpha_1.0.txt")) :=
  ⟨by decide, loadFsLocalPlugin_wrong_extension sampleEnv NewSimpleBot sampleFs
    "/srv/bot/plugins/alpha_1.0.txt" (by decide)⟩

/-- The three outcomes of `loadFsLocalPlugin`. -/
theorem loadFsLocalPlugin_cases (env : Env) (state : SimpleBot) (fs : FileSystem)
    (path : String) :
    loadFsLocalPlugin env state fs path = ([], .error (invalidExtension path)) ∨
    (∃ err, env.pluginOpen fs path = .error err ∧
      loadFsLocalPlugin env state fs path =
        ([.log "loading plugin from local filesystem", .pluginOpen path,
          .log "failed to load plugin locally"], .error err)) ∨
    (∃ plugin, env.pluginOpen fs path = .ok plugin ∧
      loadFsLocalPlugin env state fs path =
        ([.log "loading plugin from local filesystem", .pluginOpen path], .ok plugin)) := by
  by_cases hc : (path.data.length < 4 ||
      String.mk (path.data.drop (path.data.length - 3)) != ".so") = true
  · left
    simp only [loadFsLocalPlugin, invalidExtension, hc, if_true]
  · right
    cases ho : env.pluginOpen fs path with
    | error err =>
      left
      exact ⟨err, rfl, by simp only [loadFsLocalPlugin, hc, ho, if_false]; simp⟩
    | ok plugin =>
      right
      exact ⟨plugin, rfl, by simp only [loadFsLocalPlugin, hc, ho, if_false]; simp⟩

/-- The operations of `loadFsLocalPlugin`: at most one `plugin.Open`, of the given path,
and nothing that belongs to a download. -/
theorem loadFsLocalPlugin_events (env : Env) (state : SimpleBot) (fs : FileSystem)
    (path : String) :
    ((loadFsLocalPlugin env state fs path).1.filter Event.isPluginOpen).length ≤ 1 ∧
    (loadFsLocalPlugin env state fs path).1.filter Event.isDownload = [] ∧
    (∀ p, Event.pluginOpen p ∈ (loadFsLocalPlugin env state fs path).1 → p = path) ∧
    (∀ p, Event.create p ∉ (loadFsLocalPlugin env state fs path).1) ∧
    (∀ url, Event.httpGetAsync url ∉ (loadFsLocalPlugin env state fs path).1) ∧
    (loadFsLocalPlugin env state fs path).1.filter Event.isHttpGet = [] := by
  rcases loadFsLocalPlugin_cases env state fs path with h | ⟨err, _, h⟩ | ⟨plugin, _, h⟩ <;>
    rw [h] <;> simp [Event.isPluginOpen, Event.isDownload, Event.isHttpGet]

/-- `downloadPlugin` when `url.Parse` fails. -/
theorem downloadPlugin_parse_error (env : Env) (state : SimpleBot) (fs : FileSystem)
    (ident : PluginIdentifier) (dest : String) (err : GoError)
    (hparse : env.urlParse (ident.PluginName ++ "_" ++ ident.PluginVersion ++ ".so") =
      .error err) :
    downloadPlugin env state fs ident dest = (fs, [], some err) := by
  simp [downloadPlugin, hparse]

/-- `downloadPlugin` when `filepath.Abs` fails. -/
theorem downloadPlugin_abs_error (env : Env) (state : SimpleBot) (fs : FileSystem)
    (ident : PluginIdentifier) (dest : String) (urlPath : URL) (pathErr : GoError)
    (hparse : env.urlParse (ident.PluginName ++ "_" ++ ident.PluginVersion ++ ".so") =
      .ok urlPath)
    (habs : env.filepathAbs pathToPluginFiles = .error pathErr) :
    downloadPlugin env state fs ident dest =
      (fs, [.log "Downloading plugin from remote repository",
        .httpGetAsync (downloadUrl env state urlPath)], some pathErr) := by
  simp [downloadPlugin, downloadUrl, hparse, habs]

/-- `downloadPlugin` when `os.MkdirAll` fails. -/
theorem downloadPlugin_mkdir_error (env : Env) (state : SimpleBot) (fs : FileSystem)
    (ident : PluginIdentifier) (dest : String) (urlPath : URL) (absDirPath : String)
    (dirErr : GoError)
    (hparse : env.urlParse (ident.PluginName ++ "_" ++ ident.PluginVersion ++ ".so") =
      .ok urlPath)
    (habs : env.filepathAbs pathToPluginFiles = .ok absDirPath)
    (hmk : (env.osMkdirAll fs absDirPath).2 = some dirErr) :
    downloadPlugin env state fs ident dest =
      ((env.osMkdirAll fs absDirPath).1,
        [.log "Downloading plugin from remote repository",
          .httpGetAsync (downloadUrl env state urlPath),
          .mkdirAll absDirPath, .log "could not create directories"], some dirErr) := by
  rcases hres : env.osMkdirAll fs absDirPath with ⟨fs1, dirRes⟩
  rw [hres] at hmk
  simp only at hmk
  subst hmk
  simp [downloadPlugin, downloadUrl, hparse, habs, hres]

/-- `downloadPlugin` when `os.Create` fails. -/
theorem downloadPlugin_create_error (env : Env) (state : SimpleBot) (fs : FileSystem)
    (ident : PluginIdentifier) (dest : String) (urlPath : URL) (absDirPath : String)
    (err : GoError)
    (hparse : env.urlParse (ident.PluginName ++ "_" ++ ident.PluginVersion ++ ".so") =
      .ok urlPath)
    (habs : env.filepathAbs pathToPluginFiles = .ok absDirPath)
    (hmk : (env.osMkdirAll fs absDirPath).2 = none)
    (hcr : env.osCreate (env.osMkdirAll fs absDirPath).1 dest = some err) :
    downloadPlugin env state fs ident dest =
      ((env.osMkdirAll fs absDirPath).1,
        [.log "Downloading plugin from remote repository",
          .httpGetAsync (downloadUrl env state urlPath),
          .mkdirAll absDirPath, .create dest, .log "failed to open up file."], some err) := by
  rcases hres : env.osMkdirAll fs absDirPath with ⟨fs1, dirRes⟩
  rw [hres] at hmk hcr
  simp only at hmk hcr
  subst hmk
  simp [downloadPlugin, downloadUrl, hparse, habs, hres, hcr]

/-- `downloadPlugin` when the GET ends in a transport error. -/
theorem downloadPlugin_transport_error (env : Env) (state : SimpleBot) (fs : FileSystem)
    (ident : PluginIdentifier) (dest : String) (urlPath : URL) (absDirPath : String)
    (respErr : GoError)
    (hparse : env.urlParse (ident.PluginName ++ "_" ++ ident.PluginVersion ++ ".so") =
      .ok urlPath)
    (habs : env.filepathAbs pathToPluginFiles = .ok absDirPath)
    (hmk : (env.osMkdirAll fs absDirPath).2 = none)
    (hcr : env.osCreate (env.osMkdirAll fs absDirPath).1 dest = none)
    (herr : (env.httpGet (downloadUrl env state urlPath)).Err = some respErr) :
    downloadPlugin env state fs ident dest =
      (((env.osMkdirAll fs absDirPath).1).truncate dest,
        [.log "Downloading plugin from remote repository",
          .httpGetAsync (downloadUrl env state urlPath),
          .mkdirAll absDirPath, .create dest, .recvResponse, .closeFile dest],
        some respErr) := by
  rcases hres : env.osMkdirAll fs absDirPath with ⟨fs1, dirRes⟩
  rw [hres] at hmk hcr
  simp only at hmk hcr
  subst hmk
  simp only [downloadUrl] at herr
  simp [downloadPlugin, downloadUrl, hparse, habs, hres, hcr, herr]

/-- `downloadPlugin` when the response has a status code other than 200. -/
theorem downloadPlugin_bad_status (env : Env) (state : SimpleBot) (fs : FileSystem)
    (ident : PluginIdentifier) (dest : String) (urlPath : URL) (absDirPath : String)
    (hparse : env.urlParse (ident.PluginName ++ "_" ++ ident.PluginVersion ++ ".so") =
      .ok urlPath)
    (habs : env.filepathAbs pathToPluginFiles = .ok absDirPath)
    (hmk : (env.osMkdirAll fs absDirPath).2 = none)
    (hcr : env.osCreate (env.osMkdirAll fs absDirPath).1 dest = none)
    (herr : (env.httpGet (downloadUrl env state urlPath)).Err = none)
    (hst : (env.httpGet (downloadUrl env state urlPath)).Resp.StatusCode ≠ 200) :
    downloadPlugin env state fs ident dest =
      (((env.osMkdirAll fs absDirPath).1).truncate dest,
        [.log "Downloading plugin from remote repository",
          .httpGetAsync (downloadUrl env state urlPath),
          .mkdirAll absDirPath, .create dest, .recvResponse, .closeFile dest],
        some ("could not download plugin from " ++ env.urlString urlPath ++
          ". status code: " ++
          toString (env.httpGet (downloadUrl env state urlPath)).Resp.StatusCode)) := by
  rcases hres : env.osMkdirAll fs absDirPath with ⟨fs1, dirRes⟩
  rw [hres] at hmk hcr
  simp only at hmk hcr
  subst hmk
  simp only [downloadUrl] at herr hst
  simp [downloadPlugin, downloadUrl, hparse, habs, hres, hcr, herr, hst]

/-- `downloadPlugin` when the response has status code 200. -/
theorem downloadPlugin_status_200 (env : Env) (state : SimpleBot) (fs : FileSystem)
    (ident : PluginIdentifier) (dest : String) (urlPath : URL) (absDirPath : String)
    (hparse : env.urlParse (ident.PluginName ++ "_" ++ ident.PluginVersion ++ ".so") =
      .ok urlPath)
    (habs : env.filepathAbs pathToPluginFiles = .ok absDirPath)
    (hmk : (env.osMkdirAll fs absDirPath).2 = none)
    (hcr : env.osCreate (env.osMkdirAll fs absDirPath).1 dest = none)
    (herr : (env.httpGet (downloadUrl env state urlPath)).Err = none)
    (hst : (env.httpGet (downloadUrl env state urlPath)).Resp.StatusCode = 200) :
    downloadPlugin env state fs ident dest =
      ((((env.osMkdirAll fs absDirPath).1).truncate dest).write dest
          (env.ioCopy (env.httpGet (downloadUrl env state urlPath)).Resp.Body),
        [.log "Downloading plugin from remote repository",
          .httpGetAsync (downloadUrl env state urlPath),
          .mkdirAll absDirPath, .create dest, .recvResponse,
          .copyBody dest (env.ioCopy (env.httpGet (downloadUrl env state urlPath)).Resp.Body),
          .log "plugin successfully downloaded", .closeBody, .closeFile dest],
        none) := by
  rcases hres : env.osMkdirAll fs absDirPath with ⟨fs1, dirRes⟩
  rw [hres] at hmk hcr
  simp only at hmk hcr
  subst hmk
  simp only [downloadUrl] at herr hst
  simp [downloadPlugin, downloadUrl, hparse, habs, hres, hcr, herr, hst]

/-- The operations of `downloadPlugin`: no `plugin.Open`, at most one GET, of the URL of
the file name resolved against the repository, and no file created but `dest`. -/
theorem downloadPlugin_events (env : Env) (state : SimpleBot) (fs : FileSystem)
    (ident : PluginIdentifier) (dest : String) :
    (downloadPlugin env state fs ident dest).2.1.filter Event.isPluginOpen = [] ∧
    ((downloadPlugin env state fs ident dest).2.1.filter Event.isHttpGet).length ≤ 1 ∧
    (∀ p, Event.pluginOpen p ∉ (downloadPlugin env state fs ident dest).2.1) ∧
    (∀ p, Event.create p ∈ (downloadPlugin env state fs ident dest).2.1 → p = dest) ∧
    (∀ url, Event.httpGetAsync url ∈ (downloadPlugin env state fs ident dest).2.1 →
      ∃ urlPath,
        env.urlParse (ident.PluginName ++ "_" ++ ident.PluginVersion ++ ".so") = .ok urlPath ∧
        url = downloadUrl env state urlPath) := by
  cases hparse : env.urlParse (ident.PluginName ++ "_" ++ ident.PluginVersion ++ ".so") with
  | error err =>
    rw [downloadPlugin_parse_error env state fs ident dest err hparse]
    simp
  | ok urlPath =>
    cases habs : env.filepathAbs pathToPluginFiles with
    | error pathErr =>
      rw [downloadPlugin_abs_error env state fs ident dest urlPath pathErr hparse habs]
      simp [Event.isPluginOpen, Event.isHttpGet]
    | ok absDirPath =>
      cases hmk : (env.osMkdirAll fs absDirPath).2 with
      | some dirErr =>
        rw [downloadPlugin_mkdir_error env state fs ident dest urlPath absDirPath dirErr
          hparse habs hmk]
        simp [Event.isPluginOpen, Event.isHttpGet]
      | none =>
        cases hcr : env.osCreate (env.osMkdirAll fs absDirPath).1 dest with
        | some err =>
          rw [downloadPlugin_create_error env state fs ident dest urlPath absDirPath err
            hparse habs hmk hcr]
          simp [Event.isPluginOpen, Event.isHttpGet]
        | none =>
          cases herr : (env.httpGet (downloadUrl env state urlPath)).Err with
          | some respErr =>
            rw [downloadPlugin_transport_error env state fs ident dest urlPath absDirPath
              respErr hparse habs hmk hcr herr]
            simp [Event.isPluginOpen, Event.isHttpGet]
          | none =>
            by_cases hst : (env.httpGet (downloadUrl env state urlPath)).Resp.StatusCode = 200
            · rw [downloadPlugin_status_200 env state fs ident dest urlPath absDirPath
                hparse habs hmk hcr herr hst]
              simp [Event.isPluginOpen, Event.isHttpGet]
            · rw [downloadPlugin_bad_status env state fs ident dest urlPath absDirPath
                hparse habs hmk hcr herr hst]
              simp [Event.isPluginOpen, Event.isHttpGet]

/-- C9: `downloadPlugin` returns nil exactly when the file name parses, the plugin
directory is resolved and created, the destination file is opened, and the GET ends
without transport error in a response with status code 200; hence a transport error or
any other status code makes it return an error. -/
theorem downloadPlugin_nil_iff_200 (env : Env) (state : SimpleBot) (fs : FileSystem)
    (ident : PluginIdentifier) (dest : String) :
    ((downloadPlugin env state fs ident dest).2.2 = none ↔
      ∃ urlPath absDirPath,
        env.urlParse (ident.PluginName ++ "_" ++ ident.PluginVersion ++ ".so") = .ok urlPath ∧
        env.filepathAbs pathToPluginFiles = .ok absDirPath ∧
        (env.osMkdirAll fs absDirPath).2 = none ∧
        env.osCreate (env.osMkdirAll fs absDirPath).1 dest = none ∧
        (env.httpGet (downloadUrl env state urlPath)).Err = none ∧
        (env.httpGet (downloadUrl env state urlPath)).Resp.StatusCode = 200) ∧
    (∀ urlPath,
      env.urlParse (ident.PluginName ++ "_" ++ ident.PluginVersion ++ ".so") = .ok urlPath →
      ((env.httpGet (downloadUrl env state urlPath)).Err ≠ none ∨
        (env.httpGet (downloadUrl env state urlPath)).Resp.StatusCode ≠ 200) →
      (downloadPlugin env state fs ident dest).2.2 ≠ none) := by
  have hiff : (downloadPlugin env state fs ident dest).2.2 = none ↔
      ∃ urlPath absDirPath,
        env.urlParse (ident.PluginName ++ "_" ++ ident.PluginVersion ++ ".so") = .ok urlPath ∧
        env.filepathAbs pathToPluginFiles = .ok absDirPath ∧
        (env.osMkdirAll fs absDirPath).2 = none ∧
        env.osCreate (env.osMkdirAll fs absDirPath).1 dest = none ∧
        (env.httpGet (downloadUrl env state urlPath)).Err = none ∧
        (env.httpGet (downloadUrl env state urlPath)).Resp.StatusCode = 200 := by
    constructor
    · intro hnil
      cases hparse : env.urlParse
          (ident.PluginName ++ "_" ++ ident.PluginVersion ++ ".so") with
      | error err =>
        rw [downloadPlugin_parse_error env state fs ident dest err hparse] at hnil
        exact Option.noConfusion hnil
      | ok urlPath =>
        cases habs : env.filepathAbs pathToPluginFiles with
        | error pathErr =>
          rw [downloadPlugin_abs_error env state fs ident dest urlPath pathErr hparse habs]
            at hnil
          exact Option.noConfusion hnil
        | ok absDirPath =>
          cases hmk : (env.osMkdirAll fs absDirPath).2 with
          | some dirErr =>
            rw [downloadPlugin_mkdir_error env state fs ident dest urlPath absDirPath dirErr
              hparse habs hmk] at hnil
            exact Option.noConfusion hnil
          | none =>
            cases hcr : env.osCreate (env.osMkdirAll fs absDirPath).1 dest with
            | some err =>
              rw [downloadPlugin_create_error env state fs ident dest urlPath absDirPath err
                hparse habs hmk hcr] at hnil
              exact Option.noConfusion hnil
            | none =>
              cases herr : (env.httpGet (downloadUrl env state urlPath)).Err with
              | some respErr =>
                rw [downloadPlugin_transport_error env state fs ident dest urlPath absDirPath
                  respErr hparse habs hmk hcr herr] at hnil
                exact Option.noConfusion hnil
              | none =>
                by_cases hst :
                    (env.httpGet (downloadUrl env state urlPath)).Resp.StatusCode = 200
                · exact ⟨urlPath, absDirPath, rfl, rfl, hmk, hcr, herr, hst⟩
                · rw [downloadPlugin_bad_status env state fs ident dest urlPath absDirPath
                    hparse habs hmk hcr herr hst] at hnil
                  exact Option.noConfusion hnil
    · rintro ⟨urlPath, absDirPath, hparse, habs, hmk, hcr, herr, hst⟩
      rw [downloadPlugin_status_200 env state fs ident dest urlPath absDirPath
        hparse habs hmk hcr herr hst]
  refine ⟨hiff, ?_⟩
  intro urlPath hparse hbad hnil
  obtain ⟨urlPath2, absDirPath, hparse2, _, _, _, herr, hst⟩ := hiff.mp hnil
  rw [hparse] at hparse2
  injection hparse2 with hsame
  subst hsame
  rcases hbad with hbad | hbad
  · exact hbad herr
  · exact hbad hst

/-- Witness of C9: the repository answers 404 for `x_9.so`, and the download fails. -/
theorem downloadPlugin_nil_iff_200_witness :
    (sampleEnv.httpGet (downloadUrl sampleEnv NewSimpleBot ⟨"", "", "x_9.so"⟩)).Resp.StatusCode
      = 404 ∧
    (downloadPlugin sampleEnv NewSimpleBot sampleFs ⟨"x", "9"⟩
      "/srv/bot/plugins/x_9.so").2.2 ≠ none :=
  ⟨by decide, (downloadPlugin_nil_iff_200 sampleEnv NewSimpleBot sampleFs ⟨"x", "9"⟩
    "/srv/bot/plugins/x_9.so").2 ⟨"", "", "x_9.so"⟩ (by decide) (Or.inr (by decide))⟩

/-- C10: when the file name parses and the plugin directory and the destination file are
created, `downloadPlugin` creates the file before it receives the response; if the
response then is a transport error or has a status code other than 200, an error is
returned and the destination holds an empty file, whatever the file system held there. -/
theorem downloadPlugin_failure_leaves_empty_file (env : Env) (state : SimpleBot)
    (fs : FileSystem) (ident : PluginIdentifier) (dest : String) (urlPath : URL)
    (absDirPath : String)
    (hparse : env.urlParse (ident.PluginName ++ "_" ++ ident.PluginVersion ++ ".so") =
      .ok urlPath)
    (habs : env.filepathAbs pathToPluginFiles = .ok absDirPath)
    (hmk : (env.osMkdirAll fs absDirPath).2 = none)
    (hcr : env.osCreate (env.osMkdirAll fs absDirPath).1 dest = none)
    (hbad : (env.httpGet (downloadUrl env state urlPath)).Err ≠ none ∨
      (env.httpGet (downloadUrl env state urlPath)).Resp.StatusCode ≠ 200) :
    (downloadPlugin env state fs ident dest).2.2 ≠ none ∧
    (downloadPlugin env state fs ident dest).1 =
      ((env.osMkdirAll fs absDirPath).1).truncate dest ∧
    (downloadPlugin env state fs ident dest).1.files dest = some [] ∧
    (downloadPlugin env state fs ident dest).2.1 =
      [.log "Downloading plugin from remote repository",
        .httpGetAsync (downloadUrl env state urlPath),
        .mkdirAll absDirPath, .create dest, .recvResponse, .closeFile dest] := by
  cases herr : (env.httpGet (downloadUrl env state urlPath)).Err with
  | some respErr =>
    rw [downloadPlugin_transport_error env state fs ident dest urlPath absDirPath
      respErr hparse habs hmk hcr herr]
    simp [FileSystem.truncate]
  | none =>
    have hst : (env.httpGet (downloadUrl env state urlPath)).Resp.StatusCode ≠ 200 := by
      rcases hbad with hbad | hbad
      · exact absurd herr hbad
      · exact hbad
    rw [downloadPlugin_bad_status env state fs ident dest urlPath absDirPath
      hparse habs hmk hcr herr hst]
    simp [FileSystem.truncate]

/-- Witness of C10: `beta_2.so` is on disk but not in the repository; after the failed
download the file is empty. -/
theorem downloadPlugin_failure_leaves_empty_file_witness :
    sampleFs.files "/srv/bot/plugins/beta_2.so" = some oddModule ∧
    (downloadPlugin sampleEnv NewSimpleBot sampleFs ⟨"beta", "2"⟩
      "/srv/bot/plugins/beta_2.so").1.files "/srv/bot/plugins/beta_2.so" = some [] :=
  ⟨by decide, (downloadPlugin_failure_leaves_empty_file sampleEnv NewSimpleBot sampleFs
    ⟨"beta", "2"⟩ "/srv/bot/plugins/beta_2.so" ⟨"", "", "beta_2.so"⟩ "/srv/bot/plugins"
    (by decide) (by decide) (by decide) (by decide) (Or.inr (by decide))).2.2.1⟩

/-- `loadPluginFile` when the first local load succeeds. -/
theorem loadPluginFile_local (env : Env) (state : SimpleBot) (fs : FileSystem)
    (ident : PluginIdentifier) (plgnPath : String) (plgn : Plugin)
    (habs : env.filepathAbs (env.pathJoin pathToPluginFiles
      (ident.PluginName ++ "_" ++ ident.PluginVersion ++ ".so")) = .ok plgnPath)
    (hlocal : (loadFsLocalPlugin env state fs plgnPath).2 = .ok plgn) :
    loadPluginFile env state fs ident =
      (fs, (loadFsLocalPlugin env state fs plgnPath).1, .ok plgn) := by
  rcases hres : loadFsLocalPlugin env state fs plgnPath with ⟨local1, res⟩
  rw [hres] at hlocal
  simp only at hlocal
  subst hlocal
  simp [loadPluginFile, habs, hres]

/-- `loadPluginFile` when the first local load fails: the download follows, and the
second local load follows only a download that returned nil. -/
theorem loadPluginFile_fallback (env : Env) (state : SimpleBot) (fs : FileSystem)
    (ident : PluginIdentifier) (plgnPath : String) (err : GoError)
    (habs : env.filepathAbs (env.pathJoin pathToPluginFiles
      (ident.PluginName ++ "_" ++ ident.PluginVersion ++ ".so")) = .ok plgnPath)
    (hlocal : (loadFsLocalPlugin env state fs plgnPath).2 = .error err) :
    loadPluginFile env state fs ident =
      ((downloadPlugin env state fs ident plgnPath).1,
        (loadFsLocalPlugin env state fs plgnPath).1 ++
          [.log "Plugin not found locally. Trying to download from remote repository."] ++
          (downloadPlugin env state fs ident plgnPath).2.1 ++
          (if (downloadPlugin env state fs ident plgnPath).2.2 = none then
            (loadFsLocalPlugin env state
              (downloadPlugin env state fs ident plgnPath).1 plgnPath).1
          else []),
        if (downloadPlugin env state fs ident plgnPath).2.2 = none then
          match (loadFsLocalPlugin env state
            (downloadPlugin env state fs ident plgnPath).1 plgnPath).2 with
          | .ok lfsPlgn => .ok lfsPlgn
          | .error _ => .error (notFound env ident)
        else .error (notFound env ident)) := by
  rcases hres : loadFsLocalPlugin env state fs plgnPath with ⟨local1, res⟩
  rw [hres] at hlocal
  simp only at hlocal
  subst hlocal
  rcases hdl : downloadPlugin env state fs ident plgnPath with ⟨fs1, remote, remErr⟩
  cases remErr with
  | some remErr1 => simp [loadPluginFile, notFound, habs, hres, hdl]
  | none =>
    rcases hretry : loadFsLocalPlugin env state fs1 plgnPath with ⟨local2, res2⟩
    cases res2 <;> simp [loadPluginFile, notFound, habs, hres, hdl, hretry]

/-- C8: for every identifier, when `filepath.Abs` fails `loadPluginFile` returns that
error having attempted neither a load nor a download. Otherwise, with `plgnPath` the
absolute path of `name_version.so` in the plugin directory, it returns the module of a
successful local load without any download operation; after a failed local load it runs
`downloadPlugin` for the same identifier into `plgnPath`, and only if that returns nil
loads `plgnPath` again, once; it returns the module of that second load if it succeeds
and the error naming the identifier in every other case. At most two loads and one GET
are performed, all of `plgnPath` and of the URL of `name_version.so`. -/
theorem loadPluginFile_fallback_order (env : Env) (state : SimpleBot) (fs : FileSystem)
    (ident : PluginIdentifier) :
    (∀ absErr, env.filepathAbs (env.pathJoin pathToPluginFiles
        (ident.PluginName ++ "_" ++ ident.PluginVersion ++ ".so")) = .error absErr →
      loadPluginFile env state fs ident = (fs, [], .error absErr)) ∧
    (∀ plgnPath, env.filepathAbs (env.pathJoin pathToPluginFiles
        (ident.PluginName ++ "_" ++ ident.PluginVersion ++ ".so")) = .ok plgnPath →
      (∀ plgn, (loadFsLocalPlugin env state fs plgnPath).2 = .ok plgn →
        loadPluginFile env state fs ident =
          (fs, (loadFsLocalPlugin env state fs plgnPath).1, .ok plgn) ∧
        (loadPluginFile env state fs ident).2.1.filter Event.isDownload = []) ∧
      (∀ err, (loadFsLocalPlugin env state fs plgnPath).2 = .error err →
        (loadPluginFile env state fs ident).1 =
          (downloadPlugin env state fs ident plgnPath).1 ∧
        (loadPluginFile env state fs ident).2.1 =
          (loadFsLocalPlugin env state fs plgnPath).1 ++
            [.log "Plugin not found locally. Trying to download from remote repository."] ++
            (downloadPlugin env state fs ident plgnPath).2.1 ++
            (if (downloadPlugin env state fs ident plgnPath).2.2 = none then
              (loadFsLocalPlugin env state
                (downloadPlugin env state fs ident plgnPath).1 plgnPath).1
            else []) ∧
        ((downloadPlugin env state fs ident plgnPath).2.2 ≠ none →
          (loadPluginFile env state fs ident).2.2 = .error (notFound env ident)) ∧
        ((downloadPlugin env state fs ident plgnPath).2.2 = none →
          (∀ err2, (loadFsLocalPlugin env state
              (downloadPlugin env state fs ident plgnPath).1 plgnPath).2 = .error err2 →
            (loadPluginFile env state fs ident).2.2 = .error (notFound env ident)) ∧
          (∀ plgn, (loadFsLocalPlugin env state
              (downloadPlugin env state fs ident plgnPath).1 plgnPath).2 = .ok plgn →
            (loadPluginFile env state fs ident).2.2 = .ok plgn))) ∧
      ((loadPluginFile env state fs ident).2.1.filter Event.isPluginOpen).length ≤ 2 ∧
      ((loadPluginFile env state fs ident).2.1.filter Event.isHttpGet).length ≤ 1 ∧
      (∀ p, Event.pluginOpen p ∈ (loadPluginFile env state fs ident).2.1 → p = plgnPath) ∧
      (∀ p, Event.create p ∈ (loadPluginFile env state fs ident).2.1 → p = plgnPath) ∧
      (∀ url, Event.httpGetAsync url ∈ (loadPluginFile env state fs ident).2.1 →
        ∃ urlPath,
          env.urlParse (ident.PluginName ++ "_" ++ ident.PluginVersion ++ ".so") = .ok urlPath ∧
          url = downloadUrl env state urlPath)) := by
  refine ⟨?_, ?_⟩
  · intro absErr habs
    simp [loadPluginFile, habs]
  · intro plgnPath habs
    obtain ⟨hopen1, hdl1, hpath1, hcreate1, hget1, hnoget1⟩ :=
      loadFsLocalPlugin_events env state fs plgnPath
    obtain ⟨hopen2, hget2, hnoopen2, hcreate2, hurl2⟩ :=
      downloadPlugin_events env state fs ident plgnPath
    obtain ⟨hopen3, hdl3, hpath3, hcreate3, hget3, hnoget3⟩ :=
      loadFsLocalPlugin_events env state (downloadPlugin env state fs ident plgnPath).1 plgnPath
    cases hlocal : (loadFsLocalPlugin env state fs plgnPath).2 with
    | ok plgn =>
      have hrun := loadPluginFile_local env state fs ident plgnPath plgn habs hlocal
      rw [hrun]
      refine ⟨?_, ?_, ?_, ?_, ?_, ?_, ?_⟩
      · intro plgn2 h2
        injection h2 with h2
        subst h2
        exact ⟨rfl, hdl1⟩
      · intro err h2
        exact Except.noConfusion h2
      · exact le_trans hopen1 (by decide)
      · simp only [hnoget1, List.length_nil, Nat.zero_le]
      · exact hpath1
      · intro p hp
        exact absurd hp (hcreate1 p)
      · intro url hurl
        exact absurd hurl (hget1 url)
    | error err =>
      have hrun := loadPluginFile_fallback env state fs ident plgnPath err habs hlocal
      rw [hrun]
      refine ⟨?_, ?_, ?_, ?_, ?_, ?_, ?_⟩
      · intro plgn h2
        exact Except.noConfusion h2
      · intro err2 _
        refine ⟨rfl, rfl, ?_, ?_⟩
        · intro hne
          simp only [hne, if_false]
        · intro hnil
          simp only [hnil, if_true]
          constructor
          · intro err2 h2
            rw [h2]
          · intro plgn h2
            rw [h2]
      · simp only [List.filter_append, List.length_append, hopen2, List.length_nil]
        have hlog : List.filter Event.isPluginOpen
            [Event.log "Plugin not found locally. Trying to download from remote repository."]
              = [] := rfl
        rw [hlog]
        simp only [List.length_nil]
        split
        · omega
        · simp only [List.filter_nil, List.length_nil]
          omega
      · simp only [List.filter_append, List.length_append, hnoget1, List.length_nil]
        have hlog : List.filter Event.isHttpGet
            [Event.log "Plugin not found locally. Trying to download from remote repository."]
              = [] := rfl
        rw [hlog]
        simp only [List.length_nil]
        split
        · rw [hnoget3]
          simp only [List.length_nil]
          omega
        · simp only [List.filter_nil, List.length_nil]
          omega
      · intro p hp
        simp only [List.mem_append, List.mem_singleton] at hp
        rcases hp with ((hp | hp) | hp) | hp
        · exact hpath1 p hp
        · exact Event.noConfusion hp
        · exact absurd hp (hnoopen2 p)
        · split at hp
          · exact hpath3 p hp
          · exact absurd hp (List.not_mem_nil _)
      · intro p hp
        simp only [List.mem_append, List.mem_singleton] at hp
        rcases hp with ((hp | hp) | hp) | hp
        · exact absurd hp (hcreate1 p)
        · exact Event.noConfusion hp
        · exact hcreate2 p hp
        · split at hp
          · exact absurd hp (hcreate3 p)
          · exact absurd hp (List.not_mem_nil _)
      · intro url hp
        simp only [List.mem_append, List.mem_singleton] at hp
        rcases hp with ((hp | hp) | hp) | hp
        · exact absurd hp (hget1 url)
        · exact Event.noConfusion hp
        · exact hurl2 url hp
        · split at hp
          · exact absurd hp (hget3 url)
          · exact absurd hp (List.not_mem_nil _)


/-- Witness of C8: `search_2.0.so` is not on disk, is downloaded, and loads at the second
attempt, with exactly two loads and one GET. -/
theorem loadPluginFile_fallback_order_witness :
    (loadPluginFile sampleEnv NewSimpleBot sampleFs ⟨"search", "2.0"⟩).2.2 = .ok ⟨1⟩ ∧
    ((loadPluginFile sampleEnv NewSimpleBot sampleFs ⟨"search", "2.0"⟩).2.1.filter
      Event.isPluginOpen).length = 2 ∧
    ((loadPluginFile sampleEnv NewSimpleBot sampleFs ⟨"search", "2.0"⟩).2.1.filter
      Event.isHttpGet).length ≤ 1 :=
  ⟨by decide, by decide, ((loadPluginFile_fallback_order sampleEnv NewSimpleBot sampleFs
    ⟨"search", "2.0"⟩).2 "/srv/bot/plugins/search_2.0.so" (by decide)).2.2.2.1⟩

/-- Handling a load request never writes the cache, whatever the outcome of the load. -/
theorem handleLoadPlugin_loadedPlugins (env : Env) (state : SimpleBot) (fs : FileSystem)
    (ctx : Context) (ident : PluginIdentifier) :
    (handleLoadPlugin env state fs ctx ident).2.2.loadedPlugins = state.loadedPlugins := by
  unfold handleLoadPlugin loadPlugin
  split
  · rfl
  · split
    · rfl
    · split <;> rfl

/-- C6: with no active plugin, a message that is none of `Started`, `LoadPlugin`,
`Stopping`, `Stopped` leaves the file system and the whole node state as they were, is
only logged, and no plugin entry point is called. -/
theorem Receive_dropped_without_plugin (env : Env) (state : SimpleBot) (fs : FileSystem)
    (ctx : Context) (hactive : state.activePlugin = none)
    (hStarted : ctx.Message ≠ .Started) (hLoad : ∀ ident, ctx.Message ≠ .LoadPlugin ident)
    (hStopping : ctx.Message ≠ .Stopping) (hStopped : ctx.Message ≠ .Stopped) :
    Receive env state fs ctx =
      (fs, [.log "received message",
        .log "Tried to invoke a plugin while no plugin was loaded"], state) ∧
    (Receive env state fs ctx).2.2.nl = state.nl ∧
    (Receive env state fs ctx).2.2.loadedPlugins = state.loadedPlugins ∧
    (Receive env state fs ctx).2.2.activePlugin = state.activePlugin ∧
    (Receive env state fs ctx).2.2.pluginRepoUrl = state.pluginRepoUrl ∧
    (Receive env state fs ctx).2.1.filter Event.isCallReceive = [] := by
  have hrun : Receive env state fs ctx =
      (fs, [.log "received message",
        .log "Tried to invoke a plugin while no plugin was loaded"], state) := by
    unfold Receive
    cases hm : ctx.Message with
    | Started => exact absurd hm hStarted
    | LoadPlugin ident => exact absurd hm (hLoad ident)
    | Stopping => exact absurd hm hStopping
    | Stopped => exact absurd hm hStopped
    | Other payload => simp [hactive]
  rw [hrun]
  exact ⟨rfl, rfl, rfl, rfl, rfl, rfl⟩

/-- Witness of C6: a custom message to the freshly created bot. -/
theorem Receive_dropped_without_plugin_witness :
    Receive sampleEnv NewSimpleBot sampleFs (ctxOf (.Other "ping")) =
      (sampleFs, [.log "received message",
        .log "Tried to invoke a plugin while no plugin was loaded"], NewSimpleBot) :=
  (Receive_dropped_without_plugin sampleEnv NewSimpleBot sampleFs (ctxOf (.Other "ping"))
    rfl (by decide) (by intro ident; simp [ctxOf]) (by decide) (by decide)).1

/-- C7: with an active plugin, a message that is none of `Started`, `LoadPlugin`,
`Stopping`, `Stopped` makes `Receive` call the entry point of the active contract once,
on the node state and the context it was given, and call nothing else; the outcome of
`Receive` is the outcome of that call. -/
theorem Receive_forwards_to_active (env : Env) (state : SimpleBot) (fs : FileSystem)
    (ctx : Context) (active : PluginContract) (hactive : state.activePlugin = some active)
    (hStarted : ctx.Message ≠ .Started) (hLoad : ∀ ident, ctx.Message ≠ .LoadPlugin ident)
    (hStopping : ctx.Message ≠ .Stopping) (hStopped : ctx.Message ≠ .Stopped) :
    (Receive env state fs ctx).2.1 =
      [.log "received message", .callReceive active state ctx] ∧
    (Receive env state fs ctx).2.1.filter Event.isCallReceive =
      [.callReceive active state ctx] ∧
    (Receive env state fs ctx).1 = (env.callReceive active fs state ctx).1 ∧
    (Receive env state fs ctx).2.2 = (env.callReceive active fs state ctx).2 := by
  have hrun : Receive env state fs ctx =
      ((env.callReceive active fs state ctx).1,
        [.log "received message", .callReceive active state ctx],
        (env.callReceive active fs state ctx).2) := by
    unfold Receive
    cases hm : ctx.Message with
    | Started => exact absurd hm hStarted
    | LoadPlugin ident => exact absurd hm (hLoad ident)
    | Stopping => exact absurd hm hStopping
    | Stopped => exact absurd hm hStopped
    | Other payload => simp [hactive]
  rw [hrun]
  exact ⟨rfl, rfl, rfl, rfl⟩

/-- Witness of C7: a custom message to the bot whose active plugin is `y`. -/
theorem Receive_forwards_to_active_witness :
    (Receive sampleEnv botWithY sampleFs (ctxOf (.Other "ping"))).2.1 =
      [.log "received message", .callReceive ⟨41⟩ botWithY (ctxOf (.Other "ping"))] :=
  (Receive_forwards_to_active sampleEnv botWithY sampleFs (ctxOf (.Other "ping")) ⟨41⟩
    rfl (by decide) (by intro ident; simp [ctxOf]) (by decide) (by decide)).1

/-- C3: a load request for an identifier that is in the cache makes the cached contract
the active one, leaves the cache, the other fields and the file system as they were, and
performs no operation at all: `loadPlugin`, hence `loadPluginFile`, `loadFsLocalPlugin`
and `downloadPlugin`, is not entered. -/
theorem handleLoadPlugin_cached (env : Env) (state : SimpleBot) (fs : FileSystem)
    (ctx : Context) (ident : PluginIdentifier) (cached : Option PluginContract)
    (hit : state.loadedPlugins.lookup ident = some cached) :
    handleLoadPlugin env state fs ctx ident =
      (fs, [], { state with activePlugin := cached }) ∧
    (handleLoadPlugin env state fs ctx ident).2.2.activePlugin = cached ∧
    (handleLoadPlugin env state fs ctx ident).2.2.loadedPlugins = state.loadedPlugins ∧
    (handleLoadPlugin env state fs ctx ident).2.1.filter Event.isFsOrNet = [] ∧
    Receive env state fs ⟨ctx.Self, .LoadPlugin ident⟩ =
      (fs, [.log "received message"], { state with activePlugin := cached }) := by
  have hrun : handleLoadPlugin env state fs ctx ident =
      (fs, [], { state with activePlugin := cached }) := by
    unfold handleLoadPlugin
    rw [hit]
  have hrun2 : handleLoadPlugin env state fs ⟨ctx.Self, .LoadPlugin ident⟩ ident =
      (fs, [], { state with activePlugin := cached }) := by
    unfold handleLoadPlugin
    rw [hit]
  refine ⟨hrun, ?_, ?_, ?_, ?_⟩
  · rw [hrun]
  · rw [hrun]
  · rw [hrun]; rfl
  · unfold Receive
    simp only [hrun2, List.append_nil]

/-- Witness of C3: `alpha` is cached, so no file is opened although one exists. -/
theorem handleLoadPlugin_cached_witness :
    botWithCache.loadedPlugins.lookup ⟨"alpha", "1.0"⟩ = some (some ⟨7⟩) ∧
    handleLoadPlugin sampleEnv botWithCache sampleFs (ctxOf (.LoadPlugin ⟨"alpha", "1.0"⟩))
      ⟨"alpha", "1.0"⟩ = (sampleFs, [], { botWithCache with activePlugin := some ⟨7⟩ }) :=
  ⟨by decide, (handleLoadPlugin_cached sampleEnv botWithCache sampleFs
    (ctxOf (.LoadPlugin ⟨"alpha", "1.0"⟩)) ⟨"alpha", "1.0"⟩ (some ⟨7⟩) (by decide)).1⟩

/-- C2: when the identifier is not in the cache and the load fails, either because
`loadPluginFile` returns an error or because no `Receive` contract can be extracted from
the loaded module, the node state after the request is the state before it. -/
theorem handleLoadPlugin_failure_keeps_state (env : Env) (state : SimpleBot)
    (fs : FileSystem) (ctx : Context) (ident : PluginIdentifier)
    (miss : state.loadedPlugins.lookup ident = none)
    (hfail : (∃ err, (loadPluginFile env state fs ident).2.2 = .error err) ∨
      (∃ plgn err, (loadPluginFile env state fs ident).2.2 = .ok plgn ∧
        loadFunctionsAndVariablesFromPlugin env state plgn = .error err)) :
    (handleLoadPlugin env state fs ctx ident).2.2 = state ∧
    (handleLoadPlugin env state fs ctx ident).2.2.activePlugin = state.activePlugin ∧
    (handleLoadPlugin env state fs ctx ident).2.2.loadedPlugins = state.loadedPlugins ∧
    (Receive env state fs ⟨ctx.Self, .LoadPlugin ident⟩).2.2 = state := by
  have hrun : ∀ c : Context, (handleLoadPlugin env state fs c ident).2.2 = state := by
    intro c
    unfold handleLoadPlugin loadPlugin
    rw [miss]
    rcases hfail with ⟨err, herr⟩ | ⟨plgn, err, hok, herr⟩
    · rcases hfile : loadPluginFile env state fs ident with ⟨fs1, file, res⟩
      rw [hfile] at herr
      simp only at herr
      subst herr
      rfl
    · rcases hfile : loadPluginFile env state fs ident with ⟨fs1, file, res⟩
      rw [hfile] at hok
      simp only at hok
      subst hok
      simp only [herr]
  refine ⟨hrun ctx, ?_, ?_, ?_⟩
  · rw [hrun ctx]
  · rw [hrun ctx]
  · have h2 := hrun ⟨ctx.Self, .LoadPlugin ident⟩
    unfold Receive
    simpa using h2

/-- Witness of C2: `x`, version `9`, is neither on disk nor in the repository, and `y`
stays the active plugin. -/
theorem handleLoadPlugin_failure_keeps_state_witness :
    (handleLoadPlugin sampleEnv botWithY sampleFs (ctxOf (.LoadPlugin ⟨"x", "9"⟩))
      ⟨"x", "9"⟩).2.2 = botWithY :=
  (handleLoadPlugin_failure_keeps_state sampleEnv botWithY sampleFs
    (ctxOf (.LoadPlugin ⟨"x", "9"⟩)) ⟨"x", "9"⟩ (by decide)
    (Or.inl ⟨"plugin x_9 could not be found", by decide⟩)).1

/-- C1: the freshly created bot is asked for `alpha`, version `1.0`, which is not cached;
the module file loads and its `Receive` contract is extracted, the contract becomes
active, and yet the cache has no entry for `alpha` and is as long as before. -/
theorem handleLoadPlugin_success_not_cached :
    NewSimpleBot.loadedPlugins.lookup ⟨"alpha", "1.0"⟩ = none ∧
    (loadPluginFile sampleEnv NewSimpleBot sampleFs ⟨"alpha", "1.0"⟩).2.2 = .ok ⟨1⟩ ∧
    loadFunctionsAndVariablesFromPlugin sampleEnv NewSimpleBot ⟨1⟩ = .ok ⟨7⟩ ∧
    (handleLoadPlugin sampleEnv NewSimpleBot sampleFs (ctxOf (.LoadPlugin ⟨"alpha", "1.0"⟩))
      ⟨"alpha", "1.0"⟩).2.2.activePlugin = some ⟨7⟩ ∧
    (handleLoadPlugin sampleEnv NewSimpleBot sampleFs (ctxOf (.LoadPlugin ⟨"alpha", "1.0"⟩))
      ⟨"alpha", "1.0"⟩).2.2.loadedPlugins.lookup ⟨"alpha", "1.0"⟩ = none ∧
    (handleLoadPlugin sampleEnv NewSimpleBot sampleFs (ctxOf (.LoadPlugin ⟨"alpha", "1.0"⟩))
      ⟨"alpha", "1.0"⟩).2.2.loadedPlugins.length = NewSimpleBot.loadedPlugins.length := by
  decide

/-- C4: the state reached from `NewSimpleBot` by one successful load request has an
active plugin that is the value of no cache entry, the cache being empty. -/
theorem receiveAll_active_not_in_cache :
    activeInCache NewSimpleBot ∧
    (receiveAll sampleEnv NewSimpleBot sampleFs
      [ctxOf (.LoadPlugin ⟨"alpha", "1.0"⟩)]).2.2.activePlugin = some ⟨7⟩ ∧
    (receiveAll sampleEnv NewSimpleBot sampleFs
      [ctxOf (.LoadPlugin ⟨"alpha", "1.0"⟩)]).2.2.loadedPlugins = [] ∧
    ¬ activeInCache (receiveAll sampleEnv NewSimpleBot sampleFs
      [ctxOf (.LoadPlugin ⟨"alpha", "1.0"⟩)]).2.2 := by
  have hactive : (receiveAll sampleEnv NewSimpleBot sampleFs
      [ctxOf (.LoadPlugin ⟨"alpha", "1.0"⟩)]).2.2.activePlugin = some ⟨7⟩ := by decide
  have hcache : (receiveAll sampleEnv NewSimpleBot sampleFs
      [ctxOf (.LoadPlugin ⟨"alpha", "1.0"⟩)]).2.2.loadedPlugins = [] := by decide
  refine ⟨Or.inl rfl, hactive, hcache, ?_⟩
  rintro (hnone | ⟨ident, hident⟩)
  · rw [hactive] at hnone
    exact Option.noConfusion hnone
  · rw [hcache] at hident
    exact Option.noConfusion hident

end Bot
